import Mathlib

/-!
Shallow embedding of the KSP autopilot (src/autopilot.py) and the offline
trajectory visualiser (src/vis_landing_trajectory.py).

Modelling choices:
* Machine floats become exact rationals; the transcendental library calls
  `math.sqrt`, `math.exp` and the constant `math.pi` are abstracted as the
  fields of `MathPrims`, threaded through every definition that uses them.
* The external vessel (krpc) is a per-tick read-only snapshot (`Vessel`,
  `Env`); commands sent to it are recorded in a trace (`List Command`).
* Python runtime faults are explicit: a `ZeroDivisionError` is `PErr.divZero`
  (raised exactly when the divisor is 0, as in CPython), an `IndexError` on
  `list[0]` is `PErr.indexErr`; the unbounded Euler loop is given fuel and
  reports `PErr.fuelOut` when it is exhausted.
-/

namespace KSP

/-- Abstracted math library primitives: `math.sqrt`, `math.exp`, `math.pi`. -/
structure MathPrims where
  sqrt : ℚ → ℚ
  exp : ℚ → ℚ
  pi : ℚ

/-- One entry of `vessel.resources.all`: its name, amount, and the stage of
the part containing it (`res.part.stage`). -/
structure Resource where
  name : String
  amount : ℚ
  partStage : ℤ
deriving DecidableEq

/-- One entry of `vessel.parts.all`.  `isEngine`/`isDecoupler` model the
truthiness of `part.engine` / `part.decoupler`; `availableThrust`,
`decoupled` and `staged` model the corresponding attributes. -/
structure Part where
  pid : ℕ
  stage : ℤ
  isEngine : Bool
  availableThrust : ℚ
  isDecoupler : Bool
  decoupled : Bool
  staged : Bool
deriving DecidableEq

/-- Read-only snapshot of the vessel used during one call. -/
structure Vessel where
  currentStage : ℤ
  parts : List Part
  resources : List Resource
  mass : ℚ
deriving DecidableEq

/-- Commands issued to the vessel over the krpc connection. -/
inductive Command where
  | activateNextStage
  | decouple (pid : ℕ)
  | setThrustLimit (pid : ℕ) (v : ℚ)
  | setEngineActive (pid : ℕ) (b : Bool)
  | targetPitchHeading (pitch heading : ℚ)
  | setThrottle (v : ℚ)
  | apEngage
  | apDisengage
  | ctrlSAS (b : Bool)
  | ctrlSASModeRetro
  | apSAS (b : Bool)
  | apSASModeRetro
deriving DecidableEq

/-- Python runtime faults the source can raise, plus fuel exhaustion of the
bounded model of the unbounded integration loop. -/
inductive PErr where
  | divZero
  | indexErr
  | fuelOut
deriving DecidableEq

/-- Python division: raises `ZeroDivisionError` when the divisor is zero. -/
def pdiv (a b : ℚ) : Except PErr ℚ :=
  if b = 0 then .error .divZero else .ok (a / b)

/-- Python `%` on reals (sign of the result follows the divisor):
`x % y = x - y * floor (x / y)`.  Callers guard `y ≠ 0`. -/
def qmod (x y : ℚ) : ℚ := x - y * ⌊x / y⌋

/-- Autopilot mutable state: `mission_stage`, `achieved_apoapsis`,
`relative_x`, `last_time_update`. -/
structure AState where
  mission_stage : ℕ
  achieved_apoapsis : Bool
  relative_x : ℚ
  last_time_update : ℚ
deriving DecidableEq

/-- Telemetry visible to one `tick`: the live streams, the flight values in
the hybrid frame, the wall clock and warp rate, and the vessel snapshot. -/
structure Env where
  altitude : ℚ
  apoapsis : ℚ
  periapsis : ℚ
  horizontal_speed : ℚ
  vertical_speed : ℚ
  velx : ℚ
  vely : ℚ
  velz : ℚ
  now : ℚ
  warp_rate : ℚ
  vessel : Vessel
deriving DecidableEq

/-- Loop body of `Autopilot.has_resource`: scan `vessel.resources.all`,
return `True` on the first resource with the target name, positive amount,
and part stage equal to the current control stage. -/
def has_resource_loop (trg : String) (cur : ℤ) : List Resource → Bool
  | [] => false
  | r :: rs =>
    if r.name = trg ∧ r.amount > 0 ∧ r.partStage = cur then true
    else has_resource_loop trg cur rs

/-- `Autopilot.has_resource(trg_res)`. -/
def has_resource (v : Vessel) (trg : String) : Bool :=
  has_resource_loop trg v.currentStage v.resources

/-- Loop body of `Autopilot.get_resource`: total amount of the named
resource over all parts, regardless of stage. -/
def get_resource_loop (trg : String) : List Resource → ℚ
  | [] => 0
  | r :: rs => (if r.name = trg then r.amount else 0) + get_resource_loop trg rs

/-- `Autopilot.get_resource(trg_res)`. -/
def get_resource (v : Vessel) (trg : String) : ℚ :=
  get_resource_loop trg v.resources

/-- Loop body of `Autopilot.decouple_this_stage`: issue `decouple` for every
decoupler part with `part.stage + 1 == cur_stage`, not yet decoupled, and
staged. -/
def decouple_loop (cur : ℤ) : List Part → List Command
  | [] => []
  | p :: ps =>
    if p.isDecoupler = true ∧ p.stage + 1 = cur ∧ p.decoupled = false ∧ p.staged = true
    then Command.decouple p.pid :: decouple_loop cur ps
    else decouple_loop cur ps

/-- `Autopilot.decouple_this_stage()`. -/
def decouple_this_stage (v : Vessel) : List Command :=
  decouple_loop v.currentStage v.parts

/-- Loop body of `Autopilot.run_engines_this_stage`: for every engine part
with `part.stage + 1 == cur_stage`, set `thrust_limit = 1` then
`active = True`. -/
def run_engines_loop (cur : ℤ) : List Part → List Command
  | [] => []
  | p :: ps =>
    if p.isEngine = true ∧ p.stage + 1 = cur
    then Command.setThrustLimit p.pid 1 :: Command.setEngineActive p.pid true ::
      run_engines_loop cur ps
    else run_engines_loop cur ps

/-- `Autopilot.run_engines_this_stage()`. -/
def run_engines_this_stage (v : Vessel) : List Command :=
  run_engines_loop v.currentStage v.parts

/-- Loop body of `Autopilot.get_engines_this_stage`: collect every engine
part with `part.stage + 1 == cur_stage`. -/
def get_engines_loop (cur : ℤ) : List Part → List Part
  | [] => []
  | p :: ps =>
    if p.isEngine = true ∧ p.stage + 1 = cur
    then p :: get_engines_loop cur ps
    else get_engines_loop cur ps

/-- `Autopilot.get_engines_this_stage()`. -/
def get_engines_this_stage (v : Vessel) : List Part :=
  get_engines_loop v.currentStage v.parts

/-- `Autopilot.next_stage()`: when neither SolidFuel nor LiquidFuel remains
in the current control stage, activate the next stage, decouple, and start
the engines of the current stage; otherwise do nothing. -/
def next_stage (v : Vessel) : List Command :=
  if has_resource v "SolidFuel" = false ∧ has_resource v "LiquidFuel" = false then
    Command.activateNextStage :: (decouple_this_stage v ++ run_engines_this_stage v)
  else []

/-- `Autopilot.can_next_stage()`: generic rule first, then the per-stage
`if`/`elif` chain. -/
def can_next_stage (env : Env) (s : AState) : Bool :=
  if s.mission_stage < 5 ∧ env.apoapsis > 70000 ∧ env.periapsis > 70000 then true
  else if s.mission_stage = 0 ∧ env.apoapsis > 10000 ∧ ¬ has_resource env.vessel "SolidFuel" = true then true
  else if s.mission_stage = 1 ∧ |env.apoapsis - env.altitude| < 2000 then true
  else if s.mission_stage = 2 ∧ env.apoapsis > 72000 then true
  else if s.mission_stage = 3 ∧ s.achieved_apoapsis = true then true
  else if s.mission_stage = 4 ∧ env.periapsis > 70000 then true
  else false

/-- `g * kerbin_mass` with `g = 6.67430e-11`, `kerbin_mass = 5.2915158e22`. -/
def g_kerbin_mass : ℚ := (66743 / 10 ^ 15) * (52915158 * 10 ^ 15)

/-- `pod_square = 2.5**2 * math.pi`. -/
def pod_square (M : MathPrims) : ℚ := (5 / 2) ^ 2 * M.pi

/-- One `while y > 0` pass plus recursion, from the body of
`Autopilot.compute_landing_loc` (drag coefficient 0.95, `delta_t = 1`).
Arguments after the fuel are `x y v_x v_y`; every division whose divisor is
a run-time value goes through `pdiv`, mirroring `ZeroDivisionError`. -/
def landing_loop (M : MathPrims) (mass : ℚ) : ℕ → ℚ → ℚ → ℚ → ℚ → Except PErr ℚ
  | 0, _, _, _, _ => .error .fuelOut
  | fuel + 1, x, y, v_x, v_y =>
    if y > 0 then
      let v := M.sqrt (v_x ^ 2 + v_y ^ 2)
      let air_density := (121325 / 100000 : ℚ) * M.exp (-y / 5000)
      let drag := (1 / 2 : ℚ) * air_density * v ^ 2 * pod_square M * (95 / 100)
      match pdiv drag v with
      | .error e => .error e
      | .ok dv =>
        let drag_x := dv * v_x
        let drag_y := dv * v_y
        match pdiv g_kerbin_mass ((600000 + y) ^ 2) with
        | .error e => .error e
        | .ok g0 =>
          let g := g0 * (41 / 100)
          match pdiv |drag_x| mass with
          | .error e => .error e
          | .ok t1 =>
            match pdiv (t1 * -v_x) |v_x| with
            | .error e => .error e
            | .ok a_x =>
              match pdiv |drag_y| mass with
              | .error e => .error e
              | .ok u1 =>
                match pdiv (u1 * -v_y) |v_y| with
                | .error e => .error e
                | .ok u2 =>
                  let a_y := -g + u2
                  let v_x2 := v_x + a_x * 1
                  let v_y2 := v_y + a_y * 1
                  landing_loop M mass fuel (x + v_x2 * 1) (y + v_y2 * 1) v_x2 v_y2
    else .ok x

/-- `Autopilot.compute_landing_loc(delta_speed)`, as a function of the values
it reads from the environment (`altitude`, `flight.horizontal_speed`,
`flight.vertical_speed`, `vessel.mass`). -/
def compute_landing_loc (M : MathPrims) (altitude horizontal_speed vertical_speed mass delta_speed : ℚ)
  (fuel : ℕ) : Except PErr ℚ :=
  landing_loop M mass fuel 0 altitude (horizontal_speed - delta_speed) vertical_speed

/-- One `while y > 0` pass plus recursion, from `compute_landing_trajectory`
of the visualiser (drag coefficient 0.65, `delta_t = 0.5`); accumulates the
`(altitude, horizontal_speed)` records appended each pass. -/
def vis_loop (M : MathPrims) (mass : ℚ) : ℕ → ℚ → ℚ → ℚ → ℚ → Except PErr (List (ℚ × ℚ))
  | 0, _, _, _, _ => .error .fuelOut
  | fuel + 1, x, y, v_x, v_y =>
    if y > 0 then
      let v := M.sqrt (v_x ^ 2 + v_y ^ 2)
      let air_density := (121325 / 100000 : ℚ) * M.exp (-y / 5000)
      let drag := (1 / 2 : ℚ) * air_density * v ^ 2 * pod_square M * (65 / 100)
      match pdiv drag v with
      | .error e => .error e
      | .ok dv =>
        let drag_x := dv * v_x
        let drag_y := dv * v_y
        match pdiv g_kerbin_mass ((600000 + y) ^ 2) with
        | .error e => .error e
        | .ok g0 =>
          let g := g0 * (41 / 100)
          match pdiv |drag_x| mass with
          | .error e => .error e
          | .ok t1 =>
            match pdiv (t1 * -v_x) |v_x| with
            | .error e => .error e
            | .ok a_x =>
              match pdiv |drag_y| mass with
              | .error e => .error e
              | .ok u1 =>
                match pdiv (u1 * -v_y) |v_y| with
                | .error e => .error e
                | .ok u2 =>
                  let a_y := -g + u2
                  let v_x2 := v_x + a_x * (1 / 2)
                  let v_y2 := v_y + a_y * (1 / 2)
                  match vis_loop M mass fuel (x + v_x2 * (1 / 2)) (y + v_y2 * (1 / 2)) v_x2 v_y2 with
                  | .error e => .error e
                  | .ok rest => .ok ((y + v_y2 * (1 / 2), v_x2) :: rest)
    else .ok []

/-- `compute_landing_trajectory(flight)` from src/vis_landing_trajectory.py,
as a function of the seed record's fields. -/
def compute_landing_trajectory (M : MathPrims) (altitude horizontal_speed vertical_speed mass : ℚ)
  (fuel : ℕ) : Except PErr (List (ℚ × ℚ)) :=
  vis_loop M mass fuel 0 altitude horizontal_speed vertical_speed

/-- `Autopilot.on_vessel_stage_change()`: the trace of commands it issues
for the given mission stage, paired with the fault it raises, if any (the
stage-5 diagnostic divides by the total speed).  The engine-ignition
prologue of line 193 runs for every stage before the per-stage policy. -/
def on_vessel_stage_change (M : MathPrims) (env : Env) (stage : ℕ) : List Command × Option PErr :=
  let re := run_engines_this_stage env.vessel
  if stage = 0 then (re ++ [Command.targetPitchHeading 90 90], none)
  else if stage = 2 then (re ++ [Command.targetPitchHeading 45 90, Command.setThrottle 1], none)
  else if stage = 1 then (re ++ [Command.targetPitchHeading 45 90, Command.setThrottle 0], none)
  else if stage = 3 then (re ++ [Command.setThrottle 0], none)
  else if stage = 5 then
    let tot_speed := M.sqrt (env.velx ^ 2 + env.vely ^ 2 + env.velz ^ 2)
    if tot_speed = 0 then (re ++ [Command.setThrottle 0], some PErr.divZero)
    else (re ++ [Command.setThrottle 0, Command.setThrottle 0] ++ re, none)
  else (re ++ [Command.setThrottle 1] ++ re, none)

/-- `planet_length = planet_radius * 2 * math.pi` with `planet_radius = 600000`. -/
def planet_length (M : MathPrims) : ℚ := 600000 * 2 * M.pi

/-- The value `self.relative_x` holds after the update at the top of
`Autopilot.tick` (ground-track accumulation followed by `% planet_length`);
`distance_scale = planet_radius / (planet_radius + altitude)`. -/
def tick_rx (M : MathPrims) (env : Env) (s : AState) : ℚ :=
  qmod
    (s.relative_x +
      env.horizontal_speed * (600000 / (600000 + env.altitude)) *
        (env.now - s.last_time_update) * env.warp_rate)
    (planet_length M)

/-- How one call of `Autopilot.tick` ends: normally with the new state, with
a Python fault, or hanging in the stage-6 terminal telemetry loop. -/
inductive TickEnd where
  | ok (s : AState)
  | err (e : PErr)
  | hang
deriving DecidableEq

/-- The landing-burn trigger evaluated in the stage-5 branch of
`Autopilot.tick` (burn time from total LiquidFuel at rate 7.105, speed delta
from thrust 240000 over mass, then `compute_landing_loc`); `false` when any
of those computations faults. -/
def landing_trigger (M : MathPrims) (fuel : ℕ) (env : Env) (pl rx : ℚ) : Bool :=
  let v := env.vessel
  let engine_burn_t := get_resource v "LiquidFuel" / (7105 / 1000)
  match pdiv (240 * 1000 * engine_burn_t) v.mass with
  | .error _ => false
  | .ok delta_speed =>
    match compute_landing_loc M env.altitude env.horizontal_speed env.vertical_speed v.mass delta_speed fuel with
    | .error _ => false
    | .ok target_dist => pl - target_dist - rx < engine_burn_t * env.horizontal_speed

/-- Body of `Autopilot.tick` after the ground-track update and the
`liquids_exhausted` indexing have been dealt with: the exhaustion/decouple
check, the mission-stage advance, the apoapsis latch, and the per-stage
attitude/throttle law, accumulating the command trace. -/
def tick_core (M : MathPrims) (fuel : ℕ) (env : Env) (s : AState) (pl rx : ℚ)
  (liquids_exhausted : Bool) : List Command × TickEnd :=
  let v := env.vessel
  let engines := get_engines_this_stage v
  let has_engines : Bool := (s.mission_stage == 0) || decide (0 < engines.length)
  let solids_exhausted : Bool := (s.mission_stage == 0) && !(has_resource v "SolidFuel")
  let can_decouple : Bool := decide (0 < v.currentStage)
  let dec := can_decouple && (solids_exhausted || liquids_exhausted || !has_engines)
  let cmds1 := if dec then next_stage v ++ (on_vessel_stage_change M env s.mission_stage).1 else []
  let err1 := if dec then (on_vessel_stage_change M env s.mission_stage).2 else none
  match err1 with
  | some e => (cmds1, .err e)
  | none =>
    let adv := can_next_stage env s
    let stage2 := s.mission_stage + (if adv then 1 else 0)
    let cmds2 := if adv then (on_vessel_stage_change M env stage2).1 else []
    let err2 := if adv then (on_vessel_stage_change M env stage2).2 else none
    match err2 with
    | some e => (cmds1 ++ cmds2, .err e)
    | none =>
      let achieved2 := s.achieved_apoapsis ||
        (!s.achieved_apoapsis && decide (env.apoapsis > 70000) &&
          decide (|env.altitude - env.apoapsis| < 50))
      if stage2 = 0 then
        (cmds1 ++ cmds2 ++ (if env.altitude > 8000 then [Command.targetPitchHeading 75 90] else []),
          .ok ⟨stage2, achieved2, rx, env.now⟩)
      else if 2 < stage2 ∧ stage2 < 5 then
        let att := if achieved2 then
            [Command.targetPitchHeading
              (if env.vertical_speed < 0 then min 60 (|env.vertical_speed| * 5) else 0) 90]
          else [Command.targetPitchHeading 45 90]
        (cmds1 ++ cmds2 ++ att, .ok ⟨stage2, achieved2, rx, env.now⟩)
      else if stage2 = 5 then
        let c5 := [Command.apDisengage, Command.ctrlSAS true, Command.ctrlSASModeRetro,
          Command.apSAS true, Command.apSASModeRetro, Command.setThrottle 0]
        let base := cmds1 ++ cmds2 ++ c5
        let engine_burn_t := get_resource v "LiquidFuel" / (7105 / 1000)
        match pdiv (240 * 1000 * engine_burn_t) v.mass with
        | .error e => (base, .err e)
        | .ok delta_speed =>
          let dist_run := engine_burn_t * env.horizontal_speed
          match compute_landing_loc M env.altitude env.horizontal_speed env.vertical_speed v.mass delta_speed fuel with
          | .error e => (base, .err e)
          | .ok target_dist =>
            let stage3 := if pl - target_dist - rx < dist_run then stage2 + 1 else stage2
            (base, .ok ⟨stage3, achieved2, rx, env.now⟩)
      else if stage2 = 6 then
        let c6 := run_engines_this_stage v ++ [Command.setThrottle 1, Command.apDisengage]
        if engines.length = 0 then (cmds1 ++ cmds2 ++ c6, .hang)
        else (cmds1 ++ cmds2 ++ c6, .ok ⟨stage2, achieved2, rx, env.now⟩)
      else (cmds1 ++ cmds2, .ok ⟨stage2, achieved2, rx, env.now⟩)

/-- `Autopilot.tick()`: ground-track update (with its two division faults),
the `liquids_exhausted` check — which indexes `get_engines_this_stage()[0]`
whenever `mission_stage != 0` — and then `tick_core`. -/
def tick (M : MathPrims) (fuel : ℕ) (env : Env) (s : AState) : List Command × TickEnd :=
  if (600000 : ℚ) + env.altitude = 0 then ([], .err .divZero)
  else if planet_length M = 0 then ([], .err .divZero)
  else
    let rx := tick_rx M env s
    if s.mission_stage = 0 then tick_core M fuel env s (planet_length M) rx false
    else
      match get_engines_this_stage env.vessel with
      | [] => ([], .err .indexErr)
      | e :: _ => tick_core M fuel env s (planet_length M) rx (decide (e.availableThrust ≤ 0))

/-- Iterate `tick` over a list of per-tick environments; a tick that faults
or hangs ends the run at the last completed state. -/
def run_ticks (M : MathPrims) (fuel : ℕ) : List Env → AState → AState
  | [], s => s
  | e :: es, s =>
    match tick M fuel e s with
    | (_, .ok s') => run_ticks M fuel es s'
    | _ => s

/-! Helper lemmas shared by the claim theorems. -/

theorem decouple_loop_eq_filter (cur : ℤ) (ps : List Part) :
    decouple_loop cur ps =
      (ps.filter fun p =>
        decide (p.isDecoupler = true ∧ p.stage = cur - 1 ∧ p.decoupled = false ∧ p.staged = true)).map
        (fun p => Command.decouple p.pid) := by
  induction ps with
  | nil => rfl
  | cons p ps ih =>
    by_cases h : p.isDecoupler = true ∧ p.stage + 1 = cur ∧ p.decoupled = false ∧ p.staged = true
    · have h' : p.isDecoupler = true ∧ p.stage = cur - 1 ∧ p.decoupled = false ∧ p.staged = true := by
        obtain ⟨a, b, c, d⟩ := h
        exact ⟨a, by omega, c, d⟩
      simp [decouple_loop, List.filter_cons, h, h', ih]
    · have h' : ¬(p.isDecoupler = true ∧ p.stage = cur - 1 ∧ p.decoupled = false ∧ p.staged = true) := by
        rintro ⟨a, b, c, d⟩
        exact h ⟨a, by omega, c, d⟩
      simp [decouple_loop, List.filter_cons, h, h', ih]

theorem run_engines_loop_eq_filter (cur : ℤ) (ps : List Part) :
    run_engines_loop cur ps =
      (ps.filter fun p => decide (p.isEngine = true ∧ p.stage = cur - 1)).flatMap
        (fun p => [Command.setThrustLimit p.pid 1, Command.setEngineActive p.pid true]) := by
  induction ps with
  | nil => rfl
  | cons p ps ih =>
    by_cases h : p.isEngine = true ∧ p.stage + 1 = cur
    · have h' : p.isEngine = true ∧ p.stage = cur - 1 := ⟨h.1, by omega⟩
      simp [run_engines_loop, List.filter_cons, h, h', ih]
    · have h' : ¬(p.isEngine = true ∧ p.stage = cur - 1) := by
        rintro ⟨a, b⟩
        exact h ⟨a, by omega⟩
      simp [run_engines_loop, List.filter_cons, h, h', ih]

theorem run_engines_loop_shape (cur : ℤ) (ps : List Part) :
    ∀ c ∈ run_engines_loop cur ps,
      (∃ pid, c = Command.setThrustLimit pid 1) ∨ (∃ pid, c = Command.setEngineActive pid true) := by
  induction ps with
  | nil => intro c hc; simp [run_engines_loop] at hc
  | cons p ps ih =>
    intro c hc
    by_cases h : p.isEngine = true ∧ p.stage + 1 = cur
    · simp only [run_engines_loop, if_pos h, List.mem_cons] at hc
      rcases hc with rfl | rfl | hc
      · exact Or.inl ⟨p.pid, rfl⟩
      · exact Or.inr ⟨p.pid, rfl⟩
      · exact ih c hc
    · simp only [run_engines_loop, if_neg h] at hc
      exact ih c hc

theorem has_resource_loop_iff (trg : String) (cur : ℤ) (rs : List Resource) :
    has_resource_loop trg cur rs = true ↔
      ∃ r ∈ rs, r.name = trg ∧ 0 < r.amount ∧ r.partStage = cur := by
  induction rs with
  | nil => simp [has_resource_loop]
  | cons r rs ih =>
    by_cases h : r.name = trg ∧ r.amount > 0 ∧ r.partStage = cur
    · simp only [has_resource_loop, if_pos h]
      constructor
      · intro _
        exact ⟨r, List.mem_cons_self r rs, h⟩
      · intro _
        trivial
    · simp only [has_resource_loop, if_neg h, ih]
      constructor
      · rintro ⟨x, hx, hprop⟩
        exact ⟨x, List.mem_cons_of_mem r hx, hprop⟩
      · rintro ⟨x, hx, hprop⟩
        rcases List.mem_cons.mp hx with rfl | hx'
        · exact absurd hprop h
        · exact ⟨x, hx', hprop⟩

/-! Claim theorems. -/

/-- Claim C1: `next_stage` issues no command at all when `has_resource`
holds for SolidFuel or LiquidFuel in the current control stage; otherwise it
issues the next-stage activation, then exactly the decouple commands for the
decouplers whose part stage equals the control stage minus 1, not already
decoupled, and staged, then exactly the ignition commands (thrust limit 1,
then active) for the engines of the current control stage, in that fixed
order, so every decouple command precedes every ignition command. -/
theorem next_stage_ordered_commands (v : Vessel) :
    ((has_resource v "SolidFuel" = true ∨ has_resource v "LiquidFuel" = true) →
      next_stage v = []) ∧
    (has_resource v "SolidFuel" = false → has_resource v "LiquidFuel" = false →
      next_stage v =
        Command.activateNextStage :: (decouple_this_stage v ++ run_engines_this_stage v) ∧
      decouple_this_stage v =
        (v.parts.filter fun p =>
          decide (p.isDecoupler = true ∧ p.stage = v.currentStage - 1 ∧
            p.decoupled = false ∧ p.staged = true)).map (fun p => Command.decouple p.pid) ∧
      run_engines_this_stage v =
        (v.parts.filter fun p => decide (p.isEngine = true ∧ p.stage = v.currentStage - 1)).flatMap
          (fun p => [Command.setThrustLimit p.pid 1, Command.setEngineActive p.pid true])) := by
  constructor
  · intro h
    rcases h with h | h <;>
      simp [next_stage, h]
  · intro hs hl
    refine ⟨?_, decouple_loop_eq_filter v.currentStage v.parts, run_engines_loop_eq_filter v.currentStage v.parts⟩
    simp [next_stage, hs, hl]

/-- Claim C1 witness: a fuel-free vessel at control stage 2 with one staged
decoupler and one engine at part stage 1. -/
theorem next_stage_ordered_commands_witness :
    has_resource (Vessel.mk 2
      [Part.mk 7 1 false 0 true false true, Part.mk 8 1 true 5 false false false] [] 100)
      "SolidFuel" = false ∧
    next_stage (Vessel.mk 2
      [Part.mk 7 1 false 0 true false true, Part.mk 8 1 true 5 false false false] [] 100) =
      Command.activateNextStage ::
        (decouple_this_stage (Vessel.mk 2
          [Part.mk 7 1 false 0 true false true, Part.mk 8 1 true 5 false false false] [] 100) ++
         run_engines_this_stage (Vessel.mk 2
          [Part.mk 7 1 false 0 true false true, Part.mk 8 1 true 5 false false false] [] 100)) :=
  ⟨by decide,
    ((next_stage_ordered_commands (Vessel.mk 2
      [Part.mk 7 1 false 0 true false true, Part.mk 8 1 true 5 false false false] [] 100)).2
      (by decide) (by decide)).1⟩

/-- Claim C2: for every mission stage strictly below 5, apoapsis above 70000
and periapsis above 70000 make `can_next_stage` return true, regardless of
whether the per-stage condition holds, because the generic rule is the first
test of the chain. -/
theorem can_next_stage_generic_rule (env : Env) (s : AState)
    (h1 : s.mission_stage < 5) (h2 : env.apoapsis > 70000) (h3 : env.periapsis > 70000) :
    can_next_stage env s = true := by
  simp [can_next_stage, h1, h2, h3]

/-- Claim C2 witness: mission stage 3 with both apsides at 80000 while the
stage-3 condition (`achieved_apoapsis`) is false. -/
theorem can_next_stage_generic_rule_witness :
    can_next_stage (Env.mk 0 80000 80000 0 0 0 0 0 0 0 (Vessel.mk 1 [] [] 100))
      (AState.mk 3 false 0 0) = true :=
  can_next_stage_generic_rule
    (Env.mk 0 80000 80000 0 0 0 0 0 0 0 (Vessel.mk 1 [] [] 100))
    (AState.mk 3 false 0 0) (by decide) (by decide) (by decide)

/-- Claim C6: `has_resource` returns true exactly when some resource with
the given name has strictly positive quantity and sits in a part whose stage
equals the current control stage; hence it returns false whenever every such
named resource with positive quantity sits in a part of another stage. -/
theorem has_resource_scoped (v : Vessel) (trg : String) :
    (has_resource v trg = true ↔
      ∃ r ∈ v.resources, r.name = trg ∧ 0 < r.amount ∧ r.partStage = v.currentStage) ∧
    ((∀ r ∈ v.resources, r.name = trg → 0 < r.amount → r.partStage ≠ v.currentStage) →
      has_resource v trg = false) := by
  refine ⟨has_resource_loop_iff trg v.currentStage v.resources, ?_⟩
  intro h
  by_contra hfalse
  have htrue : has_resource v trg = true := by
    cases hres : has_resource v trg
    · exact absurd hres hfalse
    · rfl
  obtain ⟨r, hr, hname, hamt, hstage⟩ :=
    (has_resource_loop_iff trg v.currentStage v.resources).mp htrue
  exact h r hr hname hamt hstage

/-- Claim C6 witness: 10 units of LiquidFuel in a part of stage 3 while the
control stage is 2. -/
theorem has_resource_scoped_witness :
    has_resource (Vessel.mk 2 [] [Resource.mk "LiquidFuel" 10 3] 100) "LiquidFuel" = false :=
  (has_resource_scoped (Vessel.mk 2 [] [Resource.mk "LiquidFuel" 10 3] 100) "LiquidFuel").2
    (by decide)

/-- Concrete instantiation of the abstract math primitives used by the
closed witnesses and counterexamples (any instantiation works for them). -/
def mathW : MathPrims := MathPrims.mk id id 3

/-- Claim C4 counterexample: on the input named by the claim
(altitude 1000, vx 100, vy 0, mass 1000, speedDelta 0) the integration does
not return a downrange value at all — the very first Euler step divides by
`abs(v_y) = 0` and faults. -/
theorem claim4_input_faults :
    compute_landing_loc mathW 1000 100 0 1000 0 5 = Except.error PErr.divZero := by
  norm_num [compute_landing_loc, landing_loop, pdiv, mathW]

/-- Claim C4 (amended): `compute_landing_loc` is a deterministic function of
its inputs (definitional in this embedding), and for altitude 1000, vx 100,
vy 0, mass 1000, speedDelta 0 the integration raises a division by zero at
the first step (drag-direction divisor `abs(v_y)` is zero) for every math
primitive instantiation and every positive step budget, instead of
terminating with a positive downrange. -/
theorem compute_landing_loc_zero_vy_divzero (M : MathPrims) (fuel : ℕ) (h : 1 ≤ fuel) :
    compute_landing_loc M 1000 100 0 1000 0 fuel = Except.error PErr.divZero := by
  obtain ⟨n, rfl⟩ : ∃ n, fuel = n + 1 := ⟨fuel - 1, by omega⟩
  show landing_loop M 1000 (n + 1) 0 1000 (100 - 0) 0 = Except.error PErr.divZero
  rcases eq_or_ne (M.sqrt 10000) 0 with hv | hv <;>
    norm_num [landing_loop, pdiv, hv]

/-- Claim C4 witness for the amended statement: budget 5 and the sample
primitives. -/
theorem compute_landing_loc_zero_vy_divzero_witness :
    1 ≤ 5 ∧ compute_landing_loc mathW 1000 100 0 1000 0 5 = Except.error PErr.divZero :=
  ⟨by decide, compute_landing_loc_zero_vy_divzero mathW 5 (by decide)⟩

/-- Claim C5: inputs with a zero velocity component make the drag-direction
computation divide by zero, in the flight-loop integrator (here the fully
degenerate `v_x = v_y = 0` case) and in the analysis-variant integrator of
the visualiser (here `v_x = 0` with `v_y = -5`); neither source function
guards zero velocity components, so the error branch is reachable. -/
theorem drag_zero_component_divzero (M : MathPrims) (fuel : ℕ) (h : 1 ≤ fuel) :
    compute_landing_loc M 500 0 0 1000 0 fuel = Except.error PErr.divZero ∧
    compute_landing_trajectory M 1000 0 (-5) 1000 fuel = Except.error PErr.divZero := by
  obtain ⟨n, rfl⟩ : ∃ n, fuel = n + 1 := ⟨fuel - 1, by omega⟩
  constructor
  · show landing_loop M 1000 (n + 1) 0 500 (0 - 0) 0 = Except.error PErr.divZero
    rcases eq_or_ne (M.sqrt 0) 0 with hv | hv <;>
      norm_num [landing_loop, pdiv, hv]
  · show vis_loop M 1000 (n + 1) 0 1000 0 (-5) = Except.error PErr.divZero
    rcases eq_or_ne (M.sqrt 25) 0 with hv | hv <;>
      norm_num [vis_loop, pdiv, hv]

/-- Claim C5 witness: budget 3 and the sample primitives. -/
theorem drag_zero_component_divzero_witness :
    1 ≤ 3 ∧ compute_landing_loc mathW 500 0 0 1000 0 3 = Except.error PErr.divZero ∧
      compute_landing_trajectory mathW 1000 0 (-5) 1000 3 = Except.error PErr.divZero :=
  ⟨by decide, (drag_zero_component_divzero mathW 3 (by decide)).1,
    (drag_zero_component_divzero mathW 3 (by decide)).2⟩

/-- Vessel and environment with one engine part in the current control
stage, used by the stage-5 entry claims. -/
def vesselW8 : Vessel := Vessel.mk 1 [Part.mk 1 0 true 1 false false false] [] 100

/-- Environment around `vesselW8` with unit prograde velocity. -/
def envW8 : Env := Env.mk 0 0 0 0 0 1 0 0 0 0 vesselW8

/-- Claim C8 counterexample: entering mission stage 5 with one engine in the
current control stage, `on_vessel_stage_change` issues an engine-ignition
command — not only throttle-0 commands. -/
theorem stage5_entry_issues_ignition :
    Command.setEngineActive 1 true ∈ (on_vessel_stage_change mathW envW8 5).1 := by
  norm_num [on_vessel_stage_change, mathW, envW8, vesselW8, run_engines_this_stage,
    run_engines_loop]

/-- Claim C8 (amended): the stage-5 entry policy sets throttle to 0 (twice)
and in addition ignites the current-control-stage engines, both in the entry
prologue and again at the end of the branch; the 520-unit post-burn velocity
is computed and printed as a diagnostic only, so every command issued is a
throttle-0, a thrust-limit-1, or an engine-activation command. -/
theorem stage5_entry_trace (M : MathPrims) (env : Env)
    (h : M.sqrt (env.velx ^ 2 + env.vely ^ 2 + env.velz ^ 2) ≠ 0) :
    on_vessel_stage_change M env 5 =
      (run_engines_this_stage env.vessel ++ [Command.setThrottle 0, Command.setThrottle 0] ++
        run_engines_this_stage env.vessel, none) ∧
    ∀ c ∈ (on_vessel_stage_change M env 5).1,
      c = Command.setThrottle 0 ∨ (∃ pid, c = Command.setThrustLimit pid 1) ∨
        (∃ pid, c = Command.setEngineActive pid true) := by
  have h5 : on_vessel_stage_change M env 5 =
      (run_engines_this_stage env.vessel ++ [Command.setThrottle 0, Command.setThrottle 0] ++
        run_engines_this_stage env.vessel, none) := by
    simp [on_vessel_stage_change, h]
  refine ⟨h5, ?_⟩
  rw [h5]
  intro c hc
  simp only [List.mem_append, List.mem_cons, List.not_mem_nil, or_false] at hc
  rcases hc with (hre | rfl | rfl) | hre
  · rcases run_engines_loop_shape env.vessel.currentStage env.vessel.parts c hre with h' | h'
    · exact Or.inr (Or.inl h')
    · exact Or.inr (Or.inr h')
  · exact Or.inl rfl
  · exact Or.inl rfl
  · rcases run_engines_loop_shape env.vessel.currentStage env.vessel.parts c hre with h' | h'
    · exact Or.inr (Or.inl h')
    · exact Or.inr (Or.inr h')

/-- Claim C8 witness for the amended statement: the one-engine vessel. -/
theorem stage5_entry_trace_witness :
    on_vessel_stage_change mathW envW8 5 =
      (run_engines_this_stage vesselW8 ++ [Command.setThrottle 0, Command.setThrottle 0] ++
        run_engines_this_stage vesselW8, none) :=
  (stage5_entry_trace mathW envW8 (by norm_num [mathW, envW8, vesselW8])).1

/-- Claim C10: every invocation of `on_vessel_stage_change`, for every
mission stage value, first issues the full engine-ignition sequence of
`run_engines_this_stage` — thrust limit 1 then active, for each engine whose
part stage plus 1 equals the control stage — before any stage-specific
attitude or throttle command. -/
theorem stage_change_ignites_first (M : MathPrims) (env : Env) (stage : ℕ) :
    (∃ t, (on_vessel_stage_change M env stage).1 = run_engines_this_stage env.vessel ++ t) ∧
    run_engines_this_stage env.vessel =
      (env.vessel.parts.filter fun p =>
        decide (p.isEngine = true ∧ p.stage = env.vessel.currentStage - 1)).flatMap
        (fun p => [Command.setThrustLimit p.pid 1, Command.setEngineActive p.pid true]) := by
  refine ⟨?_, run_engines_loop_eq_filter _ _⟩
  unfold on_vessel_stage_change
  split_ifs
  · exact ⟨[Command.targetPitchHeading 90 90], rfl⟩
  · exact ⟨[Command.targetPitchHeading 45 90, Command.setThrottle 1], rfl⟩
  · exact ⟨[Command.targetPitchHeading 45 90, Command.setThrottle 0], rfl⟩
  · exact ⟨[Command.setThrottle 0], rfl⟩
  · rcases eq_or_ne (M.sqrt (env.velx ^ 2 + env.vely ^ 2 + env.velz ^ 2)) 0 with hv | hv
    · exact ⟨[Command.setThrottle 0], by simp [hv]⟩
    · exact ⟨[Command.setThrottle 0, Command.setThrottle 0] ++ run_engines_this_stage env.vessel,
        by simp [hv]⟩
  · exact ⟨[Command.setThrottle 1] ++ run_engines_this_stage env.vessel, by simp⟩

theorem ovsc_stage0_eq (M : MathPrims) (env : Env) :
    on_vessel_stage_change M env 0 =
      (run_engines_this_stage env.vessel ++ [Command.targetPitchHeading 90 90], none) := by
  simp [on_vessel_stage_change]

theorem ovsc_stage1_eq (M : MathPrims) (env : Env) :
    on_vessel_stage_change M env 1 =
      (run_engines_this_stage env.vessel ++
        [Command.targetPitchHeading 45 90, Command.setThrottle 0], none) := by
  norm_num [on_vessel_stage_change]

theorem tick_core_stage0_ok (M : MathPrims) (fuel : ℕ) (env : Env) (s : AState) (pl rx : ℚ)
    (hs : s.mission_stage = 0) :
    ∃ cmds s', tick_core M fuel env s pl rx false = (cmds, TickEnd.ok s') := by
  simp only [tick_core, hs, ovsc_stage0_eq, ite_self]
  cases hadv : can_next_stage env s <;>
    norm_num [hadv, ovsc_stage0_eq, ovsc_stage1_eq]

/-- Claim C9: whenever the mission stage is nonzero and the current control
stage has no engines, the `liquids_exhausted` computation indexes the first
element of the empty engine list and the tick dies with an IndexError (the
environment divisions preceding it being well defined); when the mission
stage is 0 the conjunction short-circuits before the indexing, so a stage-0
tick can never raise that IndexError. -/
theorem liquids_check_empty_list (M : MathPrims) (fuel : ℕ) (env : Env) (s : AState) :
    (s.mission_stage ≠ 0 → get_engines_this_stage env.vessel = [] →
      (600000 : ℚ) + env.altitude ≠ 0 → planet_length M ≠ 0 →
      tick M fuel env s = ([], TickEnd.err PErr.indexErr)) ∧
    (s.mission_stage = 0 → (tick M fuel env s).2 ≠ TickEnd.err PErr.indexErr) := by
  constructor
  · intro hs he halt hpl
    simp [tick, halt, hpl, hs, he]
  · intro hs
    unfold tick
    by_cases halt : (600000 : ℚ) + env.altitude = 0
    · simp [halt]
    by_cases hpl : planet_length M = 0
    · simp [halt, hpl]
    · obtain ⟨cmds, s', hok⟩ :=
        tick_core_stage0_ok M fuel env s (planet_length M) (tick_rx M env s) hs
      simp [halt, hpl, hs, hok]

/-- Claim C9 witness: mission stage 1 with an engine-free vessel faults with
the IndexError. -/
theorem liquids_check_empty_list_witness :
    tick mathW 1 (Env.mk 0 0 0 0 0 0 0 0 0 0 (Vessel.mk 1 [] [] 100)) (AState.mk 1 false 0 0) =
      ([], TickEnd.err PErr.indexErr) :=
  (liquids_check_empty_list mathW 1
    (Env.mk 0 0 0 0 0 0 0 0 0 0 (Vessel.mk 1 [] [] 100)) (AState.mk 1 false 0 0)).1
    (by decide) rfl (by norm_num) (by norm_num [planet_length, mathW])

theorem tick_core_mission_stage (M : MathPrims) (fuel : ℕ) (env : Env) (s : AState)
    (pl rx : ℚ) (lq : Bool) (cmds : List Command) (s' : AState)
    (h : tick_core M fuel env s pl rx lq = (cmds, TickEnd.ok s')) :
    s'.mission_stage = s.mission_stage + (if can_next_stage env s = true then 1 else 0) +
      (if s.mission_stage + (if can_next_stage env s = true then 1 else 0) = 5 ∧
          landing_trigger M fuel env pl rx = true then 1 else 0) := by
  simp only [tick_core] at h
  split at h
  · exact absurd (congrArg Prod.snd h) (by simp)
  split at h
  · exact absurd (congrArg Prod.snd h) (by simp)
  have hsnd := congrArg Prod.snd h
  clear h
  cases hadv : can_next_stage env s
  · simp only [hadv, Bool.false_eq_true, if_false, Nat.add_zero] at hsnd ⊢
    split at hsnd
    · dsimp only at hsnd
      injection hsnd with hsnd
      subst hsnd
      dsimp only
      rw [if_neg (fun hx => by omega)]
      omega
    · split at hsnd
      · dsimp only at hsnd
        injection hsnd with hsnd
        subst hsnd
        dsimp only
        rw [if_neg (fun hx => by omega)]
        omega
      · split at hsnd
        · rename_i hc5
          split at hsnd
          · dsimp only at hsnd
            exact absurd hsnd (by simp)
          · rename_i delta_speed heqp
            split at hsnd
            · dsimp only at hsnd
              exact absurd hsnd (by simp)
            · rename_i target_dist heqc
              dsimp only at hsnd
              injection hsnd with hsnd
              subst hsnd
              dsimp only
              have htr : landing_trigger M fuel env pl rx =
                  decide (pl - target_dist - rx <
                    get_resource env.vessel "LiquidFuel" / (7105 / 1000) * env.horizontal_speed) := by
                simp only [landing_trigger, heqp, heqc]
              rw [htr]
              by_cases hc : pl - target_dist - rx <
                  get_resource env.vessel "LiquidFuel" / (7105 / 1000) * env.horizontal_speed
              · rw [if_pos hc, if_pos ⟨hc5, decide_eq_true hc⟩]
              · rw [if_neg hc, if_neg (fun hx => hc (of_decide_eq_true hx.2))]
                omega
        · split at hsnd
          · rename_i hc6
            split at hsnd
            · dsimp only at hsnd
              exact absurd hsnd (by simp)
            · dsimp only at hsnd
              injection hsnd with hsnd
              subst hsnd
              dsimp only
              rw [if_neg (fun hx => by omega)]
              omega
          · dsimp only at hsnd
            injection hsnd with hsnd
            subst hsnd
            dsimp only
            rw [if_neg (fun hx => by omega)]
            omega
  · simp only [hadv, eq_self_iff_true, if_true] at hsnd ⊢
    split at hsnd
    · dsimp only at hsnd
      injection hsnd with hsnd
      subst hsnd
      dsimp only
      rw [if_neg (fun hx => by omega)]
    · split at hsnd
      · dsimp only at hsnd
        injection hsnd with hsnd
        subst hsnd
        dsimp only
        rw [if_neg (fun hx => by omega)]
      · split at hsnd
        · rename_i hc5
          split at hsnd
          · dsimp only at hsnd
            exact absurd hsnd (by simp)
          · rename_i delta_speed heqp
            split at hsnd
            · dsimp only at hsnd
              exact absurd hsnd (by simp)
            · rename_i target_dist heqc
              dsimp only at hsnd
              injection hsnd with hsnd
              subst hsnd
              dsimp only
              have htr : landing_trigger M fuel env pl rx =
                  decide (pl - target_dist - rx <
                    get_resource env.vessel "LiquidFuel" / (7105 / 1000) * env.horizontal_speed) := by
                simp only [landing_trigger, heqp, heqc]
              rw [htr]
              by_cases hc : pl - target_dist - rx <
                  get_resource env.vessel "LiquidFuel" / (7105 / 1000) * env.horizontal_speed
              · rw [if_pos hc, if_pos ⟨hc5, decide_eq_true hc⟩]
              · rw [if_neg hc, if_neg (fun hx => hc (of_decide_eq_true hx.2))]
        · split at hsnd
          · rename_i hc6
            split at hsnd
            · dsimp only at hsnd
              exact absurd hsnd (by simp)
            · dsimp only at hsnd
              injection hsnd with hsnd
              subst hsnd
              dsimp only
              rw [if_neg (fun hx => by omega)]
          · dsimp only at hsnd
            injection hsnd with hsnd
            subst hsnd
            dsimp only
            rw [if_neg (fun hx => by omega)]

theorem tick_mission_stage (M : MathPrims) (fuel : ℕ) (env : Env) (s : AState)
    (cmds : List Command) (s' : AState)
    (h : tick M fuel env s = (cmds, TickEnd.ok s')) :
    s'.mission_stage = s.mission_stage + (if can_next_stage env s = true then 1 else 0) +
      (if s.mission_stage + (if can_next_stage env s = true then 1 else 0) = 5 ∧
          landing_trigger M fuel env (planet_length M) (tick_rx M env s) = true
        then 1 else 0) := by
  simp only [tick] at h
  split_ifs at h with h1 h2 h3
  · simp at h
  · simp at h
  · exact tick_core_mission_stage M fuel env s _ _ false cmds s' h
  · split at h
    · simp at h
    · exact tick_core_mission_stage M fuel env s _ _ _ cmds s' h

/-- Claim C3: a tick that completes normally changes the mission stage by
exactly 1 for each satisfied transition — 1 for the `can_next_stage` advance
(even if several of its predicates hold at once) and 1 for the stage-5
landing-burn trigger — and never by more; consequently the mission stage is
monotonically non-decreasing over any sequence of ticks and never revisits a
lower stage. -/
theorem mission_stage_monotone (M : MathPrims) (fuel : ℕ) :
    (∀ env s cmds s', tick M fuel env s = (cmds, TickEnd.ok s') →
      s'.mission_stage = s.mission_stage + (if can_next_stage env s = true then 1 else 0) +
        (if s.mission_stage + (if can_next_stage env s = true then 1 else 0) = 5 ∧
            landing_trigger M fuel env (planet_length M) (tick_rx M env s) = true
          then 1 else 0)) ∧
    (∀ envs s, s.mission_stage ≤ (run_ticks M fuel envs s).mission_stage) := by
  refine ⟨fun env s cmds s' h => tick_mission_stage M fuel env s cmds s' h, ?_⟩
  intro envs
  induction envs with
  | nil => intro s; exact Nat.le_refl _
  | cons e es ih =>
    intro s
    rcases htick : tick M fuel e s with ⟨c, te⟩
    cases te with
    | ok s'' =>
      have h1 := tick_mission_stage M fuel e s c s'' htick
      have h2 := ih s''
      have h3 : run_ticks M fuel (e :: es) s = run_ticks M fuel es s'' := by
        simp [run_ticks, htick]
      rw [h3]
      omega
    | err pe =>
      have h3 : run_ticks M fuel (e :: es) s = s := by simp [run_ticks, htick]
      rw [h3]
    | hang =>
      have h3 : run_ticks M fuel (e :: es) s = s := by simp [run_ticks, htick]
      rw [h3]

/-- Environment of a quiescent pad tick: everything zero, empty vessel. -/
def envW3 : Env := Env.mk 0 0 0 0 0 0 0 0 0 0 (Vessel.mk 0 [] [] 100)

/-- Claim C3 witness: a quiescent stage-0 tick completes normally and the
stage-delta formula evaluates on it. -/
theorem mission_stage_monotone_witness :
    tick mathW 1 envW3 (AState.mk 0 false 0 0) = ([], TickEnd.ok (AState.mk 0 false 0 0)) ∧
    (AState.mk 0 false 0 0).mission_stage =
      (AState.mk 0 false 0 0).mission_stage +
        (if can_next_stage envW3 (AState.mk 0 false 0 0) = true then 1 else 0) +
      (if (AState.mk 0 false 0 0).mission_stage +
          (if can_next_stage envW3 (AState.mk 0 false 0 0) = true then 1 else 0) = 5 ∧
          landing_trigger mathW 1 envW3 (planet_length mathW)
            (tick_rx mathW envW3 (AState.mk 0 false 0 0)) = true
        then 1 else 0) :=
  ⟨by norm_num [tick, tick_core, tick_rx, qmod, planet_length, mathW, envW3,
      get_engines_this_stage, get_engines_loop, has_resource, has_resource_loop,
      can_next_stage, on_vessel_stage_change, next_stage, decouple_this_stage, decouple_loop,
      run_engines_this_stage, run_engines_loop, get_resource, get_resource_loop, pdiv],
    (mission_stage_monotone mathW 1).1 envW3 (AState.mk 0 false 0 0) [] (AState.mk 0 false 0 0)
      (by norm_num [tick, tick_core, tick_rx, qmod, planet_length, mathW, envW3,
        get_engines_this_stage, get_engines_loop, has_resource, has_resource_loop,
        can_next_stage, on_vessel_stage_change, next_stage, decouple_this_stage, decouple_loop,
        run_engines_this_stage, run_engines_loop, get_resource, get_resource_loop, pdiv])⟩

/-- Vessel for the attitude-law claims: control stage 1, one engine of
positive available thrust at part stage 0 (so staging checks are quiet). -/
def vesselW7 : Vessel := Vessel.mk 1 [Part.mk 1 0 true 1 false false false] [] 100

/-- Quiescent environment around `vesselW7`. -/
def envW7 : Env := Env.mk 0 0 0 0 0 0 0 0 0 0 vesselW7

/-- Claim C7 counterexample: a quiescent tick in mission stage 2 issues no
command at all — in particular not the claimed pitch-45, heading-90 attitude
target — because the source attitude law guards `2 < mission_stage < 5`,
which excludes stage 2. -/
theorem stage2_tick_no_attitude_command :
    tick mathW 1 envW7 (AState.mk 2 false 0 0) = ([], TickEnd.ok (AState.mk 2 false 0 0)) := by
  norm_num [tick, tick_core, tick_rx, qmod, planet_length, mathW, envW7, vesselW7,
    get_engines_this_stage, get_engines_loop, has_resource, has_resource_loop,
    can_next_stage, on_vessel_stage_change, next_stage, decouple_this_stage, decouple_loop,
    run_engines_this_stage, run_engines_loop, get_resource, get_resource_loop, pdiv]

theorem tick_core_attitude_34 (M : MathPrims) (fuel : ℕ) (env : Env) (s : AState)
    (pl rx : ℚ) (lq : Bool) (cmds : List Command) (s' : AState)
    (h : tick_core M fuel env s pl rx lq = (cmds, TickEnd.ok s'))
    (h3 : 2 < s.mission_stage + (if can_next_stage env s = true then 1 else 0))
    (h5 : s.mission_stage + (if can_next_stage env s = true then 1 else 0) < 5) :
    cmds.getLast? = some (Command.targetPitchHeading
      (if s.achieved_apoapsis = true ∨ (env.apoapsis > 70000 ∧ |env.altitude - env.apoapsis| < 50)
        then (if env.vertical_speed < 0 then min 60 (|env.vertical_speed| * 5) else 0)
        else 45) 90) := by
  simp only [tick_core] at h
  split at h
  · exact absurd (congrArg Prod.snd h) (by simp)
  split at h
  · exact absurd (congrArg Prod.snd h) (by simp)
  rw [if_neg (by omega), if_pos ⟨h3, h5⟩] at h
  have hc := congrArg Prod.fst h
  dsimp only at hc
  subst hc
  have hiff : ((s.achieved_apoapsis ||
      (!s.achieved_apoapsis && decide (env.apoapsis > 70000) &&
        decide (|env.altitude - env.apoapsis| < 50))) = true) ↔
      (s.achieved_apoapsis = true ∨ (env.apoapsis > 70000 ∧ |env.altitude - env.apoapsis| < 50)) := by
    cases ha : s.achieved_apoapsis <;> simp [decide_eq_true_eq]
  rw [List.getLast?_append]
  cases hach : (s.achieved_apoapsis ||
      (!s.achieved_apoapsis && decide (env.apoapsis > 70000) &&
        decide (|env.altitude - env.apoapsis| < 50)))
  · simp only [hach, Bool.false_eq_true, if_false]
    rw [if_neg (fun hp => absurd (hiff.mpr hp) (by simp [hach]))]
    rfl
  · simp only [hach, eq_self_iff_true, if_true]
    rw [if_pos (hiff.mp hach)]
    rfl

/-- Claim C7 (amended): for every tick whose attitude law runs in mission
stage 3 or 4 (i.e. the stage after the advance check is strictly between 2
and 5 — stage 2 is excluded by the source condition `2 < mission_stage < 5`),
the last command the tick issues is the attitude target: pitch 45, heading
90 before the apoapsis latch is set, and once the latch is set pitch
`min 60 (5 * |verticalSpeed|)` when descending and 0 otherwise, at heading
90. -/
theorem tick_attitude_law_stages_3_4 (M : MathPrims) (fuel : ℕ) (env : Env) (s : AState)
    (cmds : List Command) (s' : AState)
    (hok : tick M fuel env s = (cmds, TickEnd.ok s'))
    (h3 : 2 < s.mission_stage + (if can_next_stage env s = true then 1 else 0))
    (h5 : s.mission_stage + (if can_next_stage env s = true then 1 else 0) < 5) :
    cmds.getLast? = some (Command.targetPitchHeading
      (if s.achieved_apoapsis = true ∨ (env.apoapsis > 70000 ∧ |env.altitude - env.apoapsis| < 50)
        then (if env.vertical_speed < 0 then min 60 (|env.vertical_speed| * 5) else 0)
        else 45) 90) := by
  simp only [tick] at hok
  split_ifs at hok with h1 h2 hst0
  · simp at hok
  · simp at hok
  · exact tick_core_attitude_34 M fuel env s _ _ false cmds s' hok h3 h5
  · split at hok
    · simp at hok
    · exact tick_core_attitude_34 M fuel env s _ _ _ cmds s' hok h3 h5

/-- Claim C7 witness: a quiescent stage-3 tick with the latch unset issues
the pitch-45 heading-90 target as its final command. -/
theorem tick_attitude_law_stages_3_4_witness :
    [Command.targetPitchHeading 45 90].getLast? = some (Command.targetPitchHeading
      (if (AState.mk 3 false 0 0).achieved_apoapsis = true ∨
          (envW7.apoapsis > 70000 ∧ |envW7.altitude - envW7.apoapsis| < 50)
        then (if envW7.vertical_speed < 0 then min 60 (|envW7.vertical_speed| * 5) else 0)
        else 45) 90) :=
  tick_attitude_law_stages_3_4 mathW 1 envW7 (AState.mk 3 false 0 0)
    [Command.targetPitchHeading 45 90] (AState.mk 3 false 0 0)
    (by norm_num [tick, tick_core, tick_rx, qmod, planet_length, mathW, envW7, vesselW7,
      get_engines_this_stage, get_engines_loop, has_resource, has_resource_loop,
      can_next_stage, on_vessel_stage_change, next_stage, decouple_this_stage, decouple_loop,
      run_engines_this_stage, run_engines_loop, get_resource, get_resource_loop, pdiv])
    (by norm_num [can_next_stage, envW7, vesselW7, has_resource, has_resource_loop])
    (by norm_num [can_next_stage, envW7, vesselW7, has_resource, has_resource_loop])

end KSP
